import Mathlib

/-!
Verification of the agenda server (`server.js` and its local-flow variant).

The program is a small Express router over four JSON files kept in one data
folder: `settings.json`, `credentials.json`, `token.json` and
`pacientes.json`.  We embed the file-system state, the JSON values the
program manipulates, and each route handler as pure Lean functions; external
collaborators (the phone-number library, the calendar provider) are passed in
as explicit parameters, exactly where the code calls out to them.
-/

/-- JSON values as produced by `JSON.parse`.  Objects are association lists
of key/value pairs; the program's own writes never produce duplicate keys,
and lookup is first-match. -/
inductive JVal where
  | str : String → JVal
  | num : Int → JVal
  | bool : Bool → JVal
  | null : JVal
  | obj : List (String × JVal) → JVal
  | arr : List JVal → JVal

/-- Content of a file on disk, as observed through `content.trim()` and
`JSON.parse`: `empty` is empty or whitespace-only content, `malformed` is
non-blank content on which `JSON.parse` throws, `json v` is content parsing
to the value `v`. -/
inductive Content where
  | empty : Content
  | malformed : String → Content
  | json : JVal → Content

/-- The on-disk state the server reads and writes: `settings.json`,
`credentials.json`, `token.json`, `pacientes.json` (in the source:
SETTINGS_PATH, CREDENTIALS_PATH, TOKEN_PATH, DB_PATH).  `none` means the
file does not exist (`fs.existsSync` is false). -/
structure FS where
  settings : Option Content
  credentials : Option Content
  token : Option Content
  db : Option Content

/-- First-match lookup in a JS object's key/value list (property read). -/
def jlookup : List (String × JVal) → String → Option JVal
  | [], _ => none
  | p :: rest, k => if p.1 = k then some p.2 else jlookup rest k

/-- Property assignment `o[k] = v`: overwrite in place, else append. -/
def setAssoc : List (String × JVal) → String → JVal → List (String × JVal)
  | [], k, v => [(k, v)]
  | p :: rest, k, v => if p.1 = k then (k, v) :: rest else p :: setAssoc rest k v

/-- Fields exposed by the object spread `{...v}`.  Non-object values spread
to no enumerable string keys of interest here (strings and arrays would
spread to index keys, which the program never looks up). -/
def objFields : JVal → List (String × JVal)
  | .obj o => o
  | _ => []

/-- JS truthiness of a parsed JSON value (`undefined` is handled at the
`Option` level by the callers). -/
def truthy : JVal → Bool
  | .null => false
  | .bool b => b
  | .num n => n ≠ 0
  | .str s => s ≠ ""
  | _ => true

/-- The JS `a || b` on possibly-undefined values (`none` = `undefined`). -/
def jsOr (a b : Option JVal) : Option JVal :=
  match a with
  | some v => if truthy v then some v else b
  | none => b

/-- Errors thrown by the handlers: `sentinel s` is `new Error(s)` with an
exact message the code later string-compares; `parseError` is the
`SyntaxError` from `JSON.parse`; `typeError` is the `TypeError` from reading
a property of `undefined`/`null`. -/
inductive JsError where
  | sentinel : String → JsError
  | parseError : JsError
  | typeError : JsError

/-- The `e.message` the catch blocks inspect.  Sentinel errors carry their
exact message; for the engine-raised errors we keep a representative text
(the only facts the handlers use are equality with "AUTH_REQUIRED" and
containment of "invalid_grant", both false for these). -/
def errMessage : JsError → String
  | .sentinel s => s
  | .parseError => "Unexpected token in JSON"
  | .typeError => "Cannot read properties of undefined"

/-- JS property read `v.k` on a possibly-undefined value: throws `TypeError`
on `undefined` and `null`, yields the member on objects, `undefined` on
other primitives. -/
def jsProp : Option JVal → String → Except JsError (Option JVal)
  | none, _ => .error .typeError
  | some .null, _ => .error .typeError
  | some (.obj o), k => .ok (jlookup o k)
  | some _, _ => .ok none

/-- The default settings object recreated by `getSettings`. -/
def defaultSettings : JVal :=
  .obj [("diasEscopo", .num 1), ("senhaAdmin", .str "admin"), ("ocultarIgnorados", .bool true)]

/-- Embeds `getSettings()`: if the settings file exists, is non-blank and
parses, the parsed value is returned and the disk is untouched; any other
state (missing file, blank content, parse failure) falls into the catch
block, which writes `defaultSettings` back and returns it.  The function is
total: no error reaches the caller. -/
def getSettings (fs : FS) : JVal × FS :=
  match fs.settings with
  | some (.json v) => (v, fs)
  | _ => (defaultSettings, { fs with settings := some (.json defaultSettings) })

/-- The shallow merge `{...current, ...newSettings}` observed through
property lookup: keys bound in the update shadow the current ones.  (JS
keeps an updated key at its original position; for lookup semantics the
position is irrelevant.) -/
def mergeObj : List (String × JVal) → List (String × JVal) → List (String × JVal)
  | [], upd => upd
  | p :: rest, upd =>
    if (jlookup upd p.1).isSome then mergeObj rest upd else p :: mergeObj rest upd

/-- Embeds `saveSettings(newSettings)`: read (and possibly self-heal) the
current settings, spread-merge the partial update over them, write back. -/
def saveSettings (fs : FS) (newSettings : List (String × JVal)) : FS :=
  let pr := getSettings fs
  { pr.2 with settings := some (.json (.obj (mergeObj (objFields pr.1) newSettings))) }

/-- Result of `phoneUtil.parseAndKeepRawInput` on one input: validity per
`isValidNumber` and the `E164` rendering per `phoneUtil.format`. -/
structure ParsedNumber where
  valid : Bool
  e164 : String
deriving DecidableEq

/-- The external google-libphonenumber singleton, abstracted to what
`prepararNumero` uses: `parse raw = none` models the parser throwing. -/
structure PhoneUtil where
  parse : String → Option ParsedNumber

/-- Removal of the first occurrence of a character (JS
`String.prototype.replace` with a string pattern replaces only the first
occurrence). -/
def removeFirst (c : Char) : List Char → List Char
  | [] => []
  | a :: rest => if a = c then rest else a :: removeFirst c rest

/-- The `.replace` call of `prepararNumero`: drop the first plus sign. -/
def replaceFirstPlus (s : String) : String :=
  ⟨removeFirst '+' s.toList⟩

/-- Embeds `prepararNumero(numeroBruto)`: null if parsing throws or the
number is invalid; otherwise the E.164 rendering with its leading plus
removed. -/
def prepararNumero (pu : PhoneUtil) (numeroBruto : String) : Option String :=
  match pu.parse numeroBruto with
  | none => none
  | some p => if p.valid then some (replaceFirstPlus p.e164) else none

/-- The OAuth2 client object as far as the program observes it: constructor
arguments plus the credentials set by `setCredentials`. -/
structure OAuth2Client where
  client_id : Option JVal
  client_secret : Option JVal
  redirectUri : String
  credentials : Option JVal

/-- The fixed pre-registered callback address used by `getOAuthClient`. -/
def redirectUri : String := "https://consultoriobw.com.br/agenda/oauth2callback"

/-- Embeds `getOAuthClient()` (web variant): throws the sentinel
"CREDENTIALS_MISSING" when the credentials file is absent; otherwise
`JSON.parse` runs unguarded (a parse failure propagates), `keys.web ||
keys.installed` is read, and property reads on an undefined/null result
throw a `TypeError`; on success an OAuth2 client is constructed. -/
def getOAuthClient (fs : FS) : Except JsError OAuth2Client :=
  match fs.credentials with
  | none => .error (.sentinel "CREDENTIALS_MISSING")
  | some .empty => .error .parseError
  | some (.malformed _) => .error .parseError
  | some (.json keys) =>
    match jsProp (some keys) "web" with
    | .error e => .error e
    | .ok web =>
      match jsProp (some keys) "installed" with
      | .error e => .error e
      | .ok inst =>
        let key := jsOr web inst
        match jsProp key "client_id" with
        | .error e => .error e
        | .ok cid =>
          match jsProp key "client_secret" with
          | .error e => .error e
          | .ok csec =>
            .ok { client_id := cid, client_secret := csec,
                  redirectUri := redirectUri, credentials := none }

/-- Embeds `carregarAuth()` (web variant): if the token file exists, build
the client and attach the parsed token; any failure inside the try block is
caught and falls through to `throw new Error("AUTH_REQUIRED")`, which is
also thrown when no token file exists. -/
def carregarAuth (fs : FS) : Except JsError OAuth2Client :=
  match fs.token with
  | none => .error (.sentinel "AUTH_REQUIRED")
  | some tok =>
    match getOAuthClient fs with
    | .error _ => .error (.sentinel "AUTH_REQUIRED")
    | .ok client =>
      match tok with
      | .json t => .ok { client with credentials := some t }
      | _ => .error (.sentinel "AUTH_REQUIRED")

/-- A local date-time as the handlers use it: an abstract local-day index
and the milliseconds elapsed within that day.  `setDate(getDate()+n)` adds
`n` to the day, `setHours(h,m,s,ms)` replaces the time of day. -/
structure DateTime where
  day : Int
  ms : Nat
deriving DecidableEq

/-- A raw provider event as consumed by `listarEventos`: `summary` and the
`start.dateTime`/`start.date` fields (already read as date values; `none` is
an absent field). -/
structure RawEvent where
  summary : Option String
  startDateTime : Option DateTime
  startDate : Option DateTime

/-- An output event `{titulo, data}`. -/
structure EventOut where
  titulo : String
  data : String

/-- Models the locale rendering `toLocaleDateString` "DD/MM" ++ " às " ++
`toLocaleTimeString` "HH:MM".  Our DateTime keeps an abstract day index
rather than a calendar date, so the day renders through `toString` and the
clock time is recovered from the milliseconds; the Intl formatting itself is
external to the repository. -/
def formatData (d : DateTime) : String :=
  toString d.day ++ " às " ++ toString (d.ms / 3600000) ++ ":" ++ toString (d.ms % 3600000 / 60000)

/-- The `new Date(evento.start.dateTime || evento.start.date)` expression;
when both fields are absent the JS result is an invalid date, which we pin
to an arbitrary fixed value (the program never formats such an event in the
states the claims exercise). -/
def startOf (evento : RawEvent) : DateTime :=
  (evento.startDateTime.orElse (fun _ => evento.startDate)).getD ⟨0, 0⟩

/-- The per-event mapping of `listarEventos`: `evento.summary || 'Sem
Título'` (so an absent or empty title falls back) and the formatted start. -/
def mapEvento (evento : RawEvent) : EventOut :=
  { titulo := match evento.summary with
      | some s => if s = "" then "Sem Título" else s
      | none => "Sem Título",
    data := formatData (startOf evento) }

/-- The external `calendar.events.list` call, abstracted as a function from
the requested window (`timeMin`, `timeMax`) to either a thrown error message
or the returned items. -/
def ProviderCall : Type := DateTime → DateTime → Except String (List RawEvent)

/-- The look-ahead `settings.diasEscopo || 1` of `listarEventos`: the stored
number when truthy, the default 1 when the member is absent or falsy.  A
non-numeric truthy `diasEscopo` (never written by the app, whose settings
hold numbers here) would flow NaN through the date arithmetic and is outside
the model. -/
def diasParaVer (dv : Option JVal) : Int :=
  match jsOr dv (some (.num 1)) with
  | some (.num n) => n
  | _ => 1

/-- Embeds `listarEventos(auth)` around the external provider call: resolve
the look-ahead from the (possibly self-healed) settings, request the window
[tomorrow 00:00:00.000 .. (tomorrow + dias − 1) 23:59:59.999] and map each
returned item through `mapEvento`. -/
def listarEventos (fs : FS) (now : DateTime) (provider : ProviderCall) :
    Except String (List EventOut) × FS :=
  match jsProp (some (getSettings fs).1) "diasEscopo" with
  | .error e => (.error (errMessage e), (getSettings fs).2)
  | .ok dv =>
    match provider ⟨now.day + 1, 0⟩
        ⟨(now.day + 1) + (diasParaVer dv - 1), 86399999⟩ with
    | .error msg => (.error msg, (getSettings fs).2)
    | .ok items => (.ok (items.map mapEvento), (getSettings fs).2)

/-- An HTTP JSON response: status code and body. -/
structure HttpResponse where
  status : Nat
  body : JVal

/-- JSON rendering of one output event. -/
def eventJson (e : EventOut) : JVal :=
  .obj [("titulo", .str e.titulo), ("data", .str e.data)]

/-- Whether the list `pat` occurs contiguously inside `s`, starting at its
head. -/
def startsList : List Char → List Char → Bool
  | [], _ => true
  | _ :: _, [] => false
  | a :: as, b :: bs => a = b && startsList as bs

/-- Whether `pat` occurs contiguously anywhere inside `s`. -/
def hasSub (pat : List Char) : List Char → Bool
  | [] => startsList pat []
  | b :: rest => startsList pat (b :: rest) || hasSub pat rest

/-- The JS `s.includes(pat)`. -/
def strIncludes (s pat : String) : Bool :=
  hasSub pat.toList s.toList

/-- The catch-block test of the agenda route:
`e.message === "AUTH_REQUIRED" || e.message.includes('invalid_grant')`. -/
def authErrorLike (msg : String) : Bool :=
  msg = "AUTH_REQUIRED" || strIncludes msg "invalid_grant"

/-- Embeds the `GET /api/agenda` handler: load the authorized client, list
the events, reply with them; on an error whose message is the AUTH_REQUIRED
sentinel or mentions invalid_grant, delete the token file (the guarded
unlink) and reply 401; otherwise reply 500 with the message. -/
def apiAgenda (fs : FS) (now : DateTime) (provider : ProviderCall) :
    HttpResponse × FS :=
  match carregarAuth fs with
  | .error e =>
    if authErrorLike (errMessage e) then
      ({ status := 401, body := .obj [("error", .str "AUTH_REQUIRED")] },
       { fs with token := none })
    else
      ({ status := 500,
         body := .obj [("error", .str ("Erro ao buscar agenda: " ++ errMessage e))] }, fs)
  | .ok _ =>
    match listarEventos fs now provider with
    | (.error msg, fs1) =>
      if authErrorLike msg then
        ({ status := 401, body := .obj [("error", .str "AUTH_REQUIRED")] },
         { fs1 with token := none })
      else
        ({ status := 500,
           body := .obj [("error", .str ("Erro ao buscar agenda: " ++ msg))] }, fs1)
    | (.ok evs, fs1) =>
      ({ status := 200, body := .arr (evs.map eventJson) }, fs1)

/-- One `POST /api/upload` request: the `senha` body field and the two
accepted multipart file fields (absent when not sent). -/
structure UploadRequest where
  senha : Option String
  credenciais : Option Content
  banco : Option Content

/-- The multer diskStorage middleware: each provided file field is written
under its forced canonical filename (`credenciais` → credentials.json,
`banco` → pacientes.json), overwriting any existing file, before the route
callback runs. -/
def applyMulter (fs : FS) (req : UploadRequest) : FS :=
  let fs1 := match req.credenciais with
    | some c => { fs with credentials := some c }
    | none => fs
  match req.banco with
  | some b => { fs1 with db := some b }
  | none => fs1

/-- The strict comparison `senha === settings.senhaAdmin` where `senha` is a
string or `undefined` and the right side is an arbitrary JSON member (or
`undefined`): equal only when both are the same string or both undefined. -/
def senhaIgual (senha : Option String) (admin : Option JVal) : Bool :=
  match senha, admin with
  | none, none => true
  | some s, some (.str a) => s = a
  | _, _ => false

/-- Embeds `POST /api/upload`: the multer middleware stores the uploaded
files first; only then does the callback read the settings and compare the
password, answering 403 on mismatch and 200 on match.  A `TypeError` from
reading `senhaAdmin` off a null settings value escapes the handler and is
modelled as the framework's default 500. -/
def apiUpload (fs : FS) (req : UploadRequest) : HttpResponse × FS :=
  match jsProp (some (getSettings (applyMulter fs req)).1) "senhaAdmin" with
  | .error e =>
    ({ status := 500, body := .obj [("error", .str (errMessage e))] },
     (getSettings (applyMulter fs req)).2)
  | .ok adminVal =>
    if senhaIgual req.senha adminVal then
      ({ status := 200,
         body := .obj [("success", .bool true), ("message", .str "Arquivo atualizado!")] },
       (getSettings (applyMulter fs req)).2)
    else
      ({ status := 403,
         body := .obj [("success", .bool false), ("message", .str "Senha incorreta!")] },
       (getSettings (applyMulter fs req)).2)

/-- Embeds `POST /api/salvar {nome, telefone}`: normalize the phone and
answer 400 if that fails, without touching the database; otherwise read the
database (a parse failure is caught and answered 500), coerce the patient
record to an object, set its `telefone` and write back.  A database file
parsing to a bare primitive (never written by this program) is outside the
model. -/
def apiSalvar (pu : PhoneUtil) (fs : FS) (nome telefone : String) :
    HttpResponse × FS :=
  match prepararNumero pu telefone with
  | none =>
    ({ status := 400,
       body := .obj [("success", .bool false), ("message", .str "Número inválido")] }, fs)
  | some numeroLimpo =>
    match fs.db with
    | some .empty =>
      ({ status := 500,
         body := .obj [("success", .bool false), ("message", .str (errMessage .parseError))] }, fs)
    | some (.malformed _) =>
      ({ status := 500,
         body := .obj [("success", .bool false), ("message", .str (errMessage .parseError))] }, fs)
    | some (.json dbv) =>
      let entries := objFields dbv
      let recFields := match jlookup entries nome with
        | some (.obj r) => r
        | _ => []
      let newDb := JVal.obj (setAssoc entries nome (.obj (setAssoc recFields "telefone" (.str numeroLimpo))))
      ({ status := 200, body := .obj [("success", .bool true)] },
       { fs with db := some (.json newDb) })
    | none =>
      let newDb := JVal.obj [(nome, .obj [("telefone", .str numeroLimpo)])]
      ({ status := 200, body := .obj [("success", .bool true)] },
       { fs with db := some (.json newDb) })

/-- Whether an `Except` result is a success. -/
def isOkB : Except JsError OAuth2Client → Bool
  | .ok _ => true
  | .error _ => false

/-- Whether the settings file exists, parses to an object and carries all
three recognized keys. -/
def settingsHasAllKeys (fs : FS) : Bool :=
  match fs.settings with
  | some (.json (.obj o)) =>
    ((jlookup o "diasEscopo").isSome && (jlookup o "senhaAdmin").isSome)
      && (jlookup o "ocultarIgnorados").isSome
  | _ => false

/-! ## Helper lemmas -/

theorem getSettings_of_json (fs : FS) (v : JVal) (h : fs.settings = some (.json v)) :
    getSettings fs = (v, fs) := by
  unfold getSettings
  rw [h]

theorem getSettings_fst_congr (a b : FS) (h : a.settings = b.settings) :
    (getSettings a).1 = (getSettings b).1 := by
  unfold getSettings
  rw [h]
  rcases hb : b.settings with _ | c
  · rfl
  · cases c <;> rfl

theorem getSettings_snd_credentials (fs : FS) :
    (getSettings fs).2.credentials = fs.credentials := by
  unfold getSettings
  rcases hb : fs.settings with _ | c
  · rfl
  · cases c <;> rfl

theorem getSettings_snd_token (fs : FS) :
    (getSettings fs).2.token = fs.token := by
  unfold getSettings
  rcases hb : fs.settings with _ | c
  · rfl
  · cases c <;> rfl

theorem getSettings_snd_db (fs : FS) :
    (getSettings fs).2.db = fs.db := by
  unfold getSettings
  rcases hb : fs.settings with _ | c
  · rfl
  · cases c <;> rfl

theorem applyMulter_settings (fs : FS) (req : UploadRequest) :
    (applyMulter fs req).settings = fs.settings := by
  unfold applyMulter
  rcases req with ⟨s, c, b⟩
  cases c <;> cases b <;> rfl

theorem applyMulter_credentials (fs : FS) (req : UploadRequest) :
    (applyMulter fs req).credentials =
      (match req.credenciais with
       | some c => some c
       | none => fs.credentials) := by
  unfold applyMulter
  rcases req with ⟨s, c, b⟩
  cases c <;> cases b <;> rfl

theorem applyMulter_db (fs : FS) (req : UploadRequest) :
    (applyMulter fs req).db =
      (match req.banco with
       | some b => some b
       | none => fs.db) := by
  unfold applyMulter
  rcases req with ⟨s, c, b⟩
  cases c <;> cases b <;> rfl

theorem jlookup_mergeObj (S P : List (String × JVal)) (k : String) :
    jlookup (mergeObj S P) k =
      (match jlookup P k with
       | some v => some v
       | none => jlookup S k) := by
  induction S with
  | nil =>
    rw [mergeObj]
    cases jlookup P k <;> rfl
  | cons p rest ih =>
    rcases p with ⟨pk, pv⟩
    by_cases hmem : (jlookup P pk).isSome
    · rw [mergeObj, if_pos hmem, ih]
      cases hPk : jlookup P k
      · have hne : pk ≠ k := by
          intro he
          rw [he, hPk] at hmem
          simp at hmem
        simp [jlookup, hne]
      · rfl
    · rw [mergeObj, if_neg hmem]
      by_cases hke : pk = k
      · subst hke
        have hnone : jlookup P pk = none := by
          cases h2 : jlookup P pk
          · rfl
          · rw [h2] at hmem; simp at hmem
        simp [jlookup, hnone]
      · simp [jlookup, hke, ih]

/-! ## Claims about the Settings Store -/

/-- C3 (confirmed): for every settings-file state that is missing, empty, or
fails to parse as JSON, `getSettings` returns exactly the default object
`{diasEscopo: 1, senhaAdmin: "admin", ocultarIgnorados: true}`, writes that
default back to the settings file, and (being total) never propagates the
parse error to the caller. -/
theorem getSettings_selfheal_default (fs : FS)
    (h : fs.settings = none ∨ fs.settings = some .empty ∨
         ∃ s, fs.settings = some (.malformed s)) :
    getSettings fs =
      (defaultSettings, { fs with settings := some (.json defaultSettings) }) := by
  unfold getSettings
  rcases h with h | h | ⟨s, h⟩ <;> rw [h]

/-- Witness for C3 at the missing-file state. -/
theorem getSettings_selfheal_default_witness :
    getSettings ⟨none, none, none, none⟩ =
      (defaultSettings, ⟨some (.json defaultSettings), none, none, none⟩) :=
  getSettings_selfheal_default ⟨none, none, none, none⟩ (Or.inl rfl)

/-- C2 (counterexample): a parsable settings file holding only a proper
subset of the keys is returned as-is by a successful `getSettings` and left
unchanged on disk, so afterwards the file does not contain all three
recognized keys. -/
theorem settings_parsable_subset_not_healed :
    getSettings ⟨some (.json (.obj [("diasEscopo", .num 5)])), none, none, none⟩ =
      (.obj [("diasEscopo", .num 5)],
       ⟨some (.json (.obj [("diasEscopo", .num 5)])), none, none, none⟩) ∧
    settingsHasAllKeys
      (getSettings ⟨some (.json (.obj [("diasEscopo", .num 5)])), none, none, none⟩).2 = false :=
  ⟨rfl, rfl⟩

/-- C2 (corrected): after a `getSettings` call on a missing, empty or
unparsable settings file, the file on disk contains all three recognized
keys; a parsable settings file, however, is returned as-is and the disk
state is left unchanged (so it keeps exactly its own keys). -/
theorem settings_allkeys_selfheal (fs : FS) :
    ((fs.settings = none ∨ fs.settings = some .empty ∨
        ∃ s, fs.settings = some (.malformed s)) →
      settingsHasAllKeys (getSettings fs).2 = true) ∧
    (∀ v, fs.settings = some (.json v) → getSettings fs = (v, fs)) := by
  constructor
  · intro h
    unfold getSettings settingsHasAllKeys
    rcases h with h | h | ⟨s, h⟩ <;> rw [h] <;> rfl
  · exact fun v h => getSettings_of_json fs v h

/-- Witness for C2 (corrected) at the empty-file state. -/
theorem settings_allkeys_selfheal_witness :
    settingsHasAllKeys (getSettings ⟨some Content.empty, none, none, none⟩).2 = true :=
  (settings_allkeys_selfheal ⟨some .empty, none, none, none⟩).1 (Or.inr (Or.inl rfl))

/-- C6 (confirmed): when the current settings read as the object `S`,
`saveSettings P` followed by `getSettings` yields the merged object, whose
binding at every key `k` is `P`'s value when `k` is bound in `P` and `S`'s
value otherwise (keys of `S` not mentioned in `P` are unchanged). -/
theorem saveSettings_then_get (fs : FS) (S P : List (String × JVal)) (k : String)
    (h : (getSettings fs).1 = .obj S) :
    (getSettings (saveSettings fs P)).1 = .obj (mergeObj S P) ∧
    jlookup (mergeObj S P) k =
      (match jlookup P k with
       | some v => some v
       | none => jlookup S k) := by
  refine ⟨?_, jlookup_mergeObj S P k⟩
  have hs : (saveSettings fs P).settings =
      some (.json (.obj (mergeObj S P))) := by
    unfold saveSettings
    simp [h, objFields]
  rw [getSettings_of_json _ _ hs]

/-- Witness for C6: overwrite `senhaAdmin` and read it back. -/
theorem saveSettings_then_get_witness :
    (getSettings (saveSettings
        ⟨some (.json (.obj [("diasEscopo", JVal.num 1), ("senhaAdmin", JVal.str "admin")])),
          none, none, none⟩
        [("senhaAdmin", JVal.str "nova")])).1
      = .obj (mergeObj [("diasEscopo", JVal.num 1), ("senhaAdmin", JVal.str "admin")]
          [("senhaAdmin", JVal.str "nova")]) ∧
    jlookup (mergeObj [("diasEscopo", JVal.num 1), ("senhaAdmin", JVal.str "admin")]
        [("senhaAdmin", JVal.str "nova")]) "senhaAdmin" = some (JVal.str "nova") := by
  have h := saveSettings_then_get
    ⟨some (.json (.obj [("diasEscopo", JVal.num 1), ("senhaAdmin", JVal.str "admin")])),
      none, none, none⟩
    [("diasEscopo", JVal.num 1), ("senhaAdmin", JVal.str "admin")]
    [("senhaAdmin", JVal.str "nova")] "senhaAdmin" rfl
  exact ⟨h.1, h.2.trans rfl⟩

/-! ## Claims about the Phone Normalizer and the Patient Store -/

/-- C7 (confirmed): `prepararNumero` returns null when the library parse
throws or the parsed number is invalid; when the number is valid and its
E.164 rendering is a plus sign followed by digits (the E.164 shape the
library guarantees), the result is that rendering with the leading plus
stripped, a pure digit string. -/
theorem prepararNumero_spec (pu : PhoneUtil) (raw : String) :
    (pu.parse raw = none → prepararNumero pu raw = none) ∧
    (∀ p, pu.parse raw = some p → p.valid = false → prepararNumero pu raw = none) ∧
    (∀ p ds, pu.parse raw = some p → p.valid = true → p.e164.toList = '+' :: ds →
      prepararNumero pu raw = some (String.mk ds) ∧
      ((∀ c, c ∈ ds → c.isDigit = true) →
        ∀ c, c ∈ (String.mk ds).toList → c.isDigit = true)) := by
  refine ⟨?_, ?_, ?_⟩
  · intro h
    unfold prepararNumero
    rw [h]
  · intro p hp hv
    unfold prepararNumero
    rw [hp]
    simp [hv]
  · intro p ds hp hv he
    constructor
    · unfold prepararNumero
      rw [hp]
      simp only [hv, if_true]
      unfold replaceFirstPlus
      rw [he]
      simp [removeFirst]
    · intro hd c hc
      exact hd c hc

/-- Witness for C7: a valid Brazilian mobile number rendered to 13 digits. -/
theorem prepararNumero_spec_witness :
    prepararNumero
      ⟨fun r => if r = "11999998888" then some ⟨true, "+5511999998888"⟩ else none⟩
      "11999998888" = some "5511999998888" := by
  have h := (prepararNumero_spec
      ⟨fun r => if r = "11999998888" then some ⟨true, "+5511999998888"⟩ else none⟩
      "11999998888").2.2 ⟨true, "+5511999998888"⟩ "5511999998888".toList
      (by decide) rfl (by decide)
  exact h.1.trans (by decide)

/-- C8 (confirmed): for every name and every raw phone whose normalization
fails, `POST /api/salvar` answers 400 with `success: false` and the whole
on-disk state — in particular the patient database file — is returned
unmodified: no record is created or changed. -/
theorem apiSalvar_invalid_phone (pu : PhoneUtil) (fs : FS) (nome telefone : String)
    (h : prepararNumero pu telefone = none) :
    apiSalvar pu fs nome telefone =
      ({ status := 400,
         body := .obj [("success", .bool false), ("message", .str "Número inválido")] }, fs) := by
  unfold apiSalvar
  rw [h]

/-- Witness for C8: saving "Maria" with the unparsable phone "123". -/
theorem apiSalvar_invalid_phone_witness :
    apiSalvar ⟨fun _ => none⟩ ⟨none, none, none, some (.json (.obj []))⟩ "Maria" "123" =
      ({ status := 400,
         body := .obj [("success", .bool false), ("message", .str "Número inválido")] },
       ⟨none, none, none, some (.json (.obj []))⟩) :=
  apiSalvar_invalid_phone ⟨fun _ => none⟩ ⟨none, none, none, some (.json (.obj []))⟩
    "Maria" "123" rfl

/-! ## Claims about the Credential/Token Manager -/

/-- C4 (counterexample): on a credentials file that exists but does not
parse, `getOAuthClient` propagates the raw `JSON.parse` error — it does not
fail with a `CREDENTIALS_INVALID` sentinel (no such classification exists in
the web variant). -/
theorem getOAuthClient_malformed_raw_error :
    getOAuthClient ⟨none, some (.malformed "not json"), none, none⟩ =
      .error .parseError ∧
    JsError.parseError ≠ JsError.sentinel "CREDENTIALS_INVALID" :=
  ⟨rfl, fun h => nomatch h⟩

/-- C4 (corrected): `getOAuthClient` fails with the sentinel
"CREDENTIALS_MISSING" when the credentials file is absent; when the file
exists but does not parse (or is blank) it propagates the raw JSON parse
error, and when it parses but carries neither a usable "web" nor "installed"
key it throws a `TypeError` from reading `client_id` off `undefined` — in
neither case a `CREDENTIALS_INVALID` sentinel; when the chosen key variant
is an object it returns an OAuth2 client built from that variant's
`client_id` and `client_secret` and the fixed redirect address. -/
theorem getOAuthClient_error_classification (fs : FS) :
    (fs.credentials = none →
      getOAuthClient fs = .error (.sentinel "CREDENTIALS_MISSING")) ∧
    (fs.credentials = some .empty → getOAuthClient fs = .error .parseError) ∧
    (∀ s, fs.credentials = some (.malformed s) →
      getOAuthClient fs = .error .parseError) ∧
    (∀ o, fs.credentials = some (.json (.obj o)) →
      jlookup o "web" = none → jlookup o "installed" = none →
      getOAuthClient fs = .error .typeError) ∧
    (∀ o k, fs.credentials = some (.json (.obj o)) →
      jlookup o "web" = some (.obj k) →
      getOAuthClient fs =
        .ok { client_id := jlookup k "client_id",
              client_secret := jlookup k "client_secret",
              redirectUri := redirectUri, credentials := none }) := by
  refine ⟨?_, ?_, ?_, ?_, ?_⟩
  · intro h
    unfold getOAuthClient
    rw [h]
  · intro h
    unfold getOAuthClient
    rw [h]
  · intro s h
    unfold getOAuthClient
    rw [h]
  · intro o h hw hi
    unfold getOAuthClient
    rw [h]
    simp [jsProp, hw, hi, jsOr]
  · intro o k h hw
    unfold getOAuthClient
    rw [h]
    simp [jsProp, hw, jsOr, truthy]

/-- Witness for C4 (corrected): a well-formed "web" credentials file yields
a client. -/
theorem getOAuthClient_error_classification_witness :
    getOAuthClient
      ⟨none,
       some (.json (.obj [("web", .obj [("client_id", .str "id"), ("client_secret", .str "sec")])])),
       none, none⟩ =
      .ok { client_id := some (.str "id"), client_secret := some (.str "sec"),
            redirectUri := redirectUri, credentials := none } := by
  have h := (getOAuthClient_error_classification
      ⟨none,
       some (.json (.obj [("web", .obj [("client_id", .str "id"), ("client_secret", .str "sec")])])),
       none, none⟩).2.2.2.2
      [("web", .obj [("client_id", .str "id"), ("client_secret", .str "sec")])]
      [("client_id", .str "id"), ("client_secret", .str "sec")] rfl rfl
  exact h.trans (by rfl)

theorem carregarAuth_no_token (fs : FS) (h : fs.token = none) :
    carregarAuth fs = .error (.sentinel "AUTH_REQUIRED") := by
  unfold carregarAuth
  rw [h]

theorem carregarAuth_getOAuth_error (fs : FS) (t : Content) (e : JsError)
    (h1 : fs.token = some t) (h2 : getOAuthClient fs = .error e) :
    carregarAuth fs = .error (.sentinel "AUTH_REQUIRED") := by
  unfold carregarAuth
  rw [h1, h2]

theorem carregarAuth_attaches_token (fs : FS) (t : JVal) (c : OAuth2Client)
    (h1 : fs.token = some (.json t)) (h2 : getOAuthClient fs = .ok c) :
    carregarAuth fs = .ok { c with credentials := some t } := by
  unfold carregarAuth
  rw [h1, h2]

theorem apiAgenda_of_auth_required (fs : FS) (now : DateTime) (provider : ProviderCall)
    (h : carregarAuth fs = .error (.sentinel "AUTH_REQUIRED")) :
    apiAgenda fs now provider =
      ({ status := 401, body := .obj [("error", .str "AUTH_REQUIRED")] },
       { fs with token := none }) := by
  unfold apiAgenda
  rw [h]
  have hb : authErrorLike (errMessage (JsError.sentinel "AUTH_REQUIRED")) = true := by decide
  simp [hb]

theorem apiAgenda_of_listar_error (fs : FS) (now : DateTime) (provider : ProviderCall)
    (c : OAuth2Client) (msg : String)
    (h1 : carregarAuth fs = .ok c)
    (h2 : (listarEventos fs now provider).1 = .error msg)
    (h3 : authErrorLike msg = false) :
    (apiAgenda fs now provider).1 =
      { status := 500,
        body := .obj [("error", .str ("Erro ao buscar agenda: " ++ msg))] } := by
  unfold apiAgenda
  rw [h1]
  rcases hE : listarEventos fs now provider with ⟨r, fs1⟩
  rw [hE] at h2
  simp at h2
  subst h2
  simp [h3]

/-- C5 (counterexample): a state with a readable (parsable) token file but
no credentials file makes `carregarAuth` fail with the AUTH_REQUIRED
sentinel instead of returning a client with the token attached. -/
theorem carregarAuth_readable_token_not_ok :
    (⟨some (.json defaultSettings), none, some (.json (.obj [])), none⟩ : FS).token
      = some (.json (.obj [])) ∧
    carregarAuth ⟨some (.json defaultSettings), none, some (.json (.obj [])), none⟩ =
      .error (.sentinel "AUTH_REQUIRED") ∧
    isOkB (carregarAuth
      ⟨some (.json defaultSettings), none, some (.json (.obj [])), none⟩) = false :=
  ⟨rfl, rfl, rfl⟩

/-- C5 (corrected): `carregarAuth` fails with AUTH_REQUIRED whenever no
token file exists, and returns a client with the stored token attached when
a readable token file exists PROVIDED the credentials file also lets
`getOAuthClient` succeed (a credentials failure is converted to
AUTH_REQUIRED); `GET /api/agenda` with no token file answers 401 with body
`{error: "AUTH_REQUIRED"}` and a deleted token, without throwing, and a
listing failure that is neither the sentinel nor an invalid_grant answers
500 with an error body. -/
theorem carregarAuth_agenda_auth_flow (fs : FS) (now : DateTime) (provider : ProviderCall) :
    (fs.token = none → carregarAuth fs = .error (.sentinel "AUTH_REQUIRED")) ∧
    (∀ t c, fs.token = some (.json t) → getOAuthClient fs = .ok c →
      carregarAuth fs = .ok { c with credentials := some t }) ∧
    (fs.token = none →
      apiAgenda fs now provider =
        ({ status := 401, body := .obj [("error", .str "AUTH_REQUIRED")] },
         { fs with token := none })) ∧
    (∀ c msg, carregarAuth fs = .ok c →
      (listarEventos fs now provider).1 = .error msg → authErrorLike msg = false →
      (apiAgenda fs now provider).1 =
        { status := 500,
          body := .obj [("error", .str ("Erro ao buscar agenda: " ++ msg))] }) :=
  ⟨carregarAuth_no_token fs,
   fun t c h1 h2 => carregarAuth_attaches_token fs t c h1 h2,
   fun h => apiAgenda_of_auth_required fs now provider (carregarAuth_no_token fs h),
   fun c msg h1 h2 h3 => apiAgenda_of_listar_error fs now provider c msg h1 h2 h3⟩

/-- Witness for C5 (corrected): the agenda route at a no-token state. -/
theorem carregarAuth_agenda_auth_flow_witness :
    apiAgenda ⟨some (.json defaultSettings), none, none, none⟩ ⟨0, 0⟩
        (fun _ _ => .ok []) =
      ({ status := 401, body := .obj [("error", .str "AUTH_REQUIRED")] },
       ⟨some (.json defaultSettings), none, none, none⟩) :=
  (carregarAuth_agenda_auth_flow ⟨some (.json defaultSettings), none, none, none⟩
    ⟨0, 0⟩ (fun _ _ => .ok [])).2.2.1 rfl

/-- C10 (confirmed): in the web variant, whenever a token file exists but
the credentials file is missing or unparsable, `carregarAuth` throws the
AUTH_REQUIRED sentinel (the credentials failure raised inside the try block
is caught and converted), so `GET /api/agenda` answers 401 with body
`{error: "AUTH_REQUIRED"}` and deletes the token file — the credentials
problem never surfaces as a 500. -/
theorem agenda_creds_failure_auth_required (fs : FS) (now : DateTime)
    (provider : ProviderCall) (t : Content) (h1 : fs.token = some t)
    (h2 : fs.credentials = none ∨ fs.credentials = some .empty ∨
          ∃ s, fs.credentials = some (.malformed s)) :
    carregarAuth fs = .error (.sentinel "AUTH_REQUIRED") ∧
    apiAgenda fs now provider =
      ({ status := 401, body := .obj [("error", .str "AUTH_REQUIRED")] },
       { fs with token := none }) := by
  have he : ∃ e, getOAuthClient fs = .error e := by
    rcases h2 with h | h | ⟨s, h⟩
    · exact ⟨_, by unfold getOAuthClient; rw [h]⟩
    · exact ⟨_, by unfold getOAuthClient; rw [h]⟩
    · exact ⟨_, by unfold getOAuthClient; rw [h]⟩
  rcases he with ⟨e, he⟩
  have hc := carregarAuth_getOAuth_error fs t e h1 he
  exact ⟨hc, apiAgenda_of_auth_required fs now provider hc⟩

/-- Witness for C10: token present, credentials file blank. -/
theorem agenda_creds_failure_auth_required_witness :
    carregarAuth ⟨none, some Content.empty, some (.json (.obj [])), none⟩ =
      .error (.sentinel "AUTH_REQUIRED") ∧
    apiAgenda ⟨none, some Content.empty, some (.json (.obj [])), none⟩ ⟨0, 0⟩
        (fun _ _ => .ok []) =
      ({ status := 401, body := .obj [("error", .str "AUTH_REQUIRED")] },
       ⟨none, some Content.empty, none, none⟩) :=
  agenda_creds_failure_auth_required
    ⟨none, some Content.empty, some (.json (.obj [])), none⟩ ⟨0, 0⟩
    (fun _ _ => .ok []) (.json (.obj [])) rfl (Or.inr (Or.inl rfl))

/-! ## Claims about the Event Lister -/

/-- C9 (counterexample): a provider event whose title is present but empty
is mapped to "Sem Título" (the `||` fallback also fires on the empty
string), not to its own empty title. -/
theorem listarEventos_empty_title_fallback :
    (listarEventos ⟨some (.json defaultSettings), none, none, none⟩ ⟨100, 0⟩
        (fun _ _ => .ok [⟨some "", some ⟨101, 36000000⟩, none⟩])).1 =
      .ok [{ titulo := "Sem Título", data := formatData ⟨101, 36000000⟩ }] ∧
    ("Sem Título" : String) ≠ "" :=
  ⟨rfl, by decide⟩

/-- C9 (corrected): with the current settings carrying a positive integer
`diasEscopo = d`, `listarEventos` queries the provider on exactly the window
from local midnight of tomorrow (day + 1, 0 ms) to 23:59:59.999 of
(tomorrow + d − 1) = (day + d), maps the items through `mapEvento`, and each
returned event's `titulo` is the provider event's title, falling back to
"Sem Título" when the title is absent — or empty (the `||` fallback). -/
theorem listarEventos_window (fs : FS) (now : DateTime) (provider : ProviderCall)
    (o : List (String × JVal)) (d : Int)
    (h1 : (getSettings fs).1 = .obj o)
    (h2 : jlookup o "diasEscopo" = some (.num d))
    (h3 : 1 ≤ d) :
    listarEventos fs now provider =
      ((provider ⟨now.day + 1, 0⟩ ⟨now.day + d, 86399999⟩).map (List.map mapEvento),
       (getSettings fs).2) ∧
    (∀ e : RawEvent, e.summary = none → (mapEvento e).titulo = "Sem Título") ∧
    (∀ (e : RawEvent) (s : String), e.summary = some s → s ≠ "" →
      (mapEvento e).titulo = s) ∧
    (∀ e : RawEvent, e.summary = some "" → (mapEvento e).titulo = "Sem Título") := by
  refine ⟨?_, ?_, ?_, ?_⟩
  · have hp : jsProp (some ((getSettings fs).1)) "diasEscopo" = .ok (some (.num d)) := by
      rw [h1]
      simp [jsProp, h2]
    have ht : truthy (.num d) = true := by
      simp [truthy]
      omega
    have hdv : diasParaVer (some (.num d)) = d := by
      simp [diasParaVer, jsOr, ht]
    unfold listarEventos
    rw [hp]
    simp only [hdv]
    rw [show (now.day + 1) + (d - 1) = now.day + d from by omega]
    cases hP : provider ⟨now.day + 1, 0⟩ ⟨now.day + d, 86399999⟩ <;>
      simp [hP, Except.map]
  · intro e h
    unfold mapEvento
    rw [h]
  · intro e s h hne
    unfold mapEvento
    rw [h]
    simp [hne]
  · intro e h
    unfold mapEvento
    rw [h]
    rfl

/-- Witness for C9 (corrected): a two-day window starting at day 11. -/
theorem listarEventos_window_witness :
    listarEventos ⟨some (.json (.obj [("diasEscopo", JVal.num 2)])), none, none, none⟩
        ⟨10, 500⟩ (fun _ _ => .ok []) =
      (.ok [], ⟨some (.json (.obj [("diasEscopo", JVal.num 2)])), none, none, none⟩) :=
  ((listarEventos_window ⟨some (.json (.obj [("diasEscopo", JVal.num 2)])), none, none, none⟩
    ⟨10, 500⟩ (fun _ _ => .ok []) [("diasEscopo", JVal.num 2)] 2
    rfl rfl (by decide)).1).trans rfl

/-! ## Claims about the upload route -/

/-- C1 (counterexample): a wrong-password upload request answers 403, yet
the uploaded credentials file has already been stored by the multer
middleware, overwriting the previous on-disk credentials. -/
theorem upload_wrong_password_stores_files :
    (apiUpload ⟨some (.json defaultSettings), some (.json (.obj [])), none, none⟩
        ⟨some "wrong", some (.malformed "EVIL"), none⟩).1.status = 403 ∧
    (apiUpload ⟨some (.json defaultSettings), some (.json (.obj [])), none, none⟩
        ⟨some "wrong", some (.malformed "EVIL"), none⟩).2.credentials =
      some (.malformed "EVIL") ∧
    (⟨some (.json defaultSettings), some (.json (.obj [])), none, none⟩ : FS).credentials ≠
      some (.malformed "EVIL") :=
  ⟨rfl, rfl, fun h => nomatch h⟩

/-- C1 (corrected): on a password mismatch `POST /api/upload` answers 403
`{success: false}`, and on a match 200 — but the uploaded files are stored
under the fixed canonical filenames (overwriting any existing file) by the
upload middleware BEFORE the password check, hence regardless of the
password; fields not sent leave their files untouched.  Only the success
response, not the storing of the files, is gated by the password. -/
theorem upload_password_gates_only_response (fs : FS) (req : UploadRequest)
    (adminVal : Option JVal)
    (h1 : jsProp (some (getSettings fs).1) "senhaAdmin" = .ok adminVal) :
    (senhaIgual req.senha adminVal = false →
      (apiUpload fs req).1 =
        { status := 403,
          body := .obj [("success", .bool false), ("message", .str "Senha incorreta!")] }) ∧
    (senhaIgual req.senha adminVal = true →
      (apiUpload fs req).1 =
        { status := 200,
          body := .obj [("success", .bool true), ("message", .str "Arquivo atualizado!")] }) ∧
    (∀ c, req.credenciais = some c → (apiUpload fs req).2.credentials = some c) ∧
    (req.credenciais = none → (apiUpload fs req).2.credentials = fs.credentials) ∧
    (∀ b, req.banco = some b → (apiUpload fs req).2.db = some b) ∧
    (req.banco = none → (apiUpload fs req).2.db = fs.db) := by
  have hset : (getSettings (applyMulter fs req)).1 = (getSettings fs).1 :=
    getSettings_fst_congr _ _ (applyMulter_settings fs req)
  have h1m : jsProp (some (getSettings (applyMulter fs req)).1) "senhaAdmin" = .ok adminVal := by
    rw [hset]
    exact h1
  have hsnd : (apiUpload fs req).2 = (getSettings (applyMulter fs req)).2 := by
    unfold apiUpload
    rw [h1m]
    by_cases hs : senhaIgual req.senha adminVal = true
    · simp [hs]
    · simp [hs]
  refine ⟨?_, ?_, ?_, ?_, ?_, ?_⟩
  · intro hm
    unfold apiUpload
    rw [h1m]
    simp [hm]
  · intro hm
    unfold apiUpload
    rw [h1m]
    simp [hm]
  · intro c hc
    rw [hsnd, getSettings_snd_credentials, applyMulter_credentials]
    simp [hc]
  · intro hc
    rw [hsnd, getSettings_snd_credentials, applyMulter_credentials]
    simp [hc]
  · intro b hb
    rw [hsnd, getSettings_snd_db, applyMulter_db]
    simp [hb]
  · intro hb
    rw [hsnd, getSettings_snd_db, applyMulter_db]
    simp [hb]

/-- Witness for C1 (corrected): a matching password answers 200. -/
theorem upload_password_gates_only_response_witness :
    (apiUpload ⟨some (.json defaultSettings), none, none, none⟩
        ⟨some "admin", some Content.empty, none⟩).1 =
      { status := 200,
        body := .obj [("success", .bool true), ("message", .str "Arquivo atualizado!")] } :=
  (upload_password_gates_only_response ⟨some (.json defaultSettings), none, none, none⟩
    ⟨some "admin", some Content.empty, none⟩ (some (.str "admin")) rfl).2.1 rfl
